import Mathlib

/-!
Verification of the h2fit fuel-cell parameter-fitting program.

The Python sources (`h2fit/__main__.py` and `h2fit/csv.py`) are embedded
shallowly: floating-point arrays become `List ℝ`, NumPy element-wise
arithmetic becomes `List.zipWith` over real-valued scalar functions, and
`np.log` / `np.exp` become `Real.log` / `Real.exp`.  The fixed module-level
constants and the five-point sample set of `__main__.py` are embedded as
definitions with the source's values.
-/

namespace H2fit

/-- The partial pressure of hydrogen, `pH2 = 0.65` in both sources. -/
noncomputable def pH2 : ℝ := 0.65

/-- The partial pressure of oxygen, `pO2 = 0.21` in both sources. -/
noncomputable def pO2 : ℝ := 0.21

/-- The cell count, `N = 60` in both sources. -/
noncomputable def N : ℝ := 60

/-- The seven-component parameter vector `(x1, x2, x3, x4, Rint, m, n)`
unpacked at the top of `calcular_vsaida`. -/
structure Params where
  x1 : ℝ
  x2 : ℝ
  x3 : ℝ
  x4 : ℝ
  Rint : ℝ
  m : ℝ
  n : ℝ

/-- One element-wise evaluation of `calcular_vsaida` from `__main__.py`
(lines 19–28): Nernst potential, activation term `perda_ativacao` defined
with a leading minus sign, ohmic and concentration losses, combined as
`N * (v_nernst + perda_ativacao - perda_ohmica - perda_concentracao)`. -/
noncomputable def vsaida_elem (I T : ℝ) (p : Params) : ℝ :=
  let v_nernst := 1.229 - 0.85e-3 * (T - 298.15)
    + 4.3085e-5 * T * (Real.log pH2 + 0.5 * Real.log pO2)
  let perda_ativacao := -(p.x1 + p.x2 * T
    + p.x3 * T * Real.log (pO2 / (5.08e6 * Real.exp (-498 / T)))
    + p.x4 * T * Real.log (I + 1e-6))
  let perda_ohmica := p.Rint * I
  let perda_concentracao := p.m * Real.exp (p.n * I)
  N * (v_nernst + perda_ativacao - perda_ohmica - perda_concentracao)

/-- `calcular_vsaida` from `__main__.py` applied to NumPy arrays of currents
and temperatures: element-wise evaluation over the two parallel sequences. -/
noncomputable def calcular_vsaida (I T : List ℝ) (p : Params) : List ℝ :=
  List.zipWith (fun i t => vsaida_elem i t p) I T

/-- One element-wise evaluation of `calcular_vsaida` from `csv.py`
(lines 30–38): identical terms, but combined as
`N * (v_nernst - perda_ativacao - perda_ohmica - perda_concentracao)`,
i.e. the activation term enters with the opposite sign. -/
noncomputable def vsaida_elem_csv (I T : ℝ) (p : Params) : ℝ :=
  let v_nernst := 1.229 - 0.85e-3 * (T - 298.15)
    + 4.3085e-5 * T * (Real.log pH2 + 0.5 * Real.log pO2)
  let perda_ativacao := -(p.x1 + p.x2 * T
    + p.x3 * T * Real.log (pO2 / (5.08e6 * Real.exp (-498 / T)))
    + p.x4 * T * Real.log (I + 1e-6))
  let perda_ohmica := p.Rint * I
  let perda_concentracao := p.m * Real.exp (p.n * I)
  N * (v_nernst - perda_ativacao - perda_ohmica - perda_concentracao)

/-- The array version of `calcular_vsaida` from `csv.py`. -/
noncomputable def calcular_vsaida_csv (I T : List ℝ) (p : Params) : List ℝ :=
  List.zipWith (fun i t => vsaida_elem_csv i t p) I T

/-- The hard-coded current samples `corrente` of `__main__.py` (amperes). -/
noncomputable def corrente : List ℝ := [11.2, 22.6, 35.4, 49.9, 68.1]

/-- The hard-coded temperature samples `temperatura` of `__main__.py` (kelvin). -/
noncomputable def temperatura : List ℝ := [306.55, 315.85, 322.45, 326.25, 330.45]

/-- The hard-coded reference voltages `vref` of `__main__.py` (volts). -/
noncomputable def vref : List ℝ := [52.2, 51.1, 49.2, 47, 44.1]

/-- `func_objetivo` from `__main__.py` (lines 33–36): the sum of squared
residuals between `vref` and the predicted voltages at the sample set. -/
noncomputable def func_objetivo (p : Params) : ℝ :=
  (List.zipWith (fun r v => (r - v) ^ 2) vref (calcular_vsaida corrente temperatura p)).sum

/-- C1: applied to equal-length sequences of currents and temperatures,
`calcular_vsaida` returns a sequence of the same length whose `i`-th element
is `N * (v_nernst - activation_loss - ohmic_loss - concentration_loss)`,
with the four terms exactly as the specification writes them, evaluated at
`I[i]`, `T[i]`. -/
theorem calcular_vsaida_spec_formula (I T : List ℝ) (p : Params)
    (hlen : I.length = T.length) :
    (calcular_vsaida I T p).length = I.length ∧
    ∀ i, (hi : i < I.length) → (ht : i < T.length) →
      (hr : i < (calcular_vsaida I T p).length) →
      (calcular_vsaida I T p).get ⟨i, hr⟩ =
        N * ((1.229 - 8.5e-4 * (T.get ⟨i, ht⟩ - 298.15)
              + 4.3085e-5 * T.get ⟨i, ht⟩ * (Real.log pH2 + 0.5 * Real.log pO2))
          - (p.x1 + p.x2 * T.get ⟨i, ht⟩
              + p.x3 * T.get ⟨i, ht⟩ * Real.log (pO2 / (5.08e6 * Real.exp (-498 / T.get ⟨i, ht⟩)))
              + p.x4 * T.get ⟨i, ht⟩ * Real.log (I.get ⟨i, hi⟩ + 1e-6))
          - p.Rint * I.get ⟨i, hi⟩
          - p.m * Real.exp (p.n * I.get ⟨i, hi⟩)) := by
  constructor
  · simp [calcular_vsaida, hlen]
  · intro i hi ht hr
    have hz : (calcular_vsaida I T p).get ⟨i, hr⟩ =
        vsaida_elem (I.get ⟨i, hi⟩) (T.get ⟨i, ht⟩) p := by
      simp [calcular_vsaida, List.get_eq_getElem, List.getElem_zipWith]
    rw [hz]
    show vsaida_elem (I.get ⟨i, hi⟩) (T.get ⟨i, ht⟩) p = _
    simp only [vsaida_elem]
    ring

/-- Witness for `calcular_vsaida_spec_formula` at the concrete one-point
input `I = [1]`, `T = [300]` with the zero parameter vector. -/
theorem calcular_vsaida_spec_formula_witness :
    ([(1 : ℝ)].length = [(300 : ℝ)].length) ∧
    ((calcular_vsaida [(1 : ℝ)] [(300 : ℝ)] ⟨0, 0, 0, 0, 0, 0, 0⟩).length = [(1 : ℝ)].length ∧
    ∀ i, (hi : i < [(1 : ℝ)].length) → (ht : i < [(300 : ℝ)].length) →
      (hr : i < (calcular_vsaida [(1 : ℝ)] [(300 : ℝ)] ⟨0, 0, 0, 0, 0, 0, 0⟩).length) →
      (calcular_vsaida [(1 : ℝ)] [(300 : ℝ)] ⟨0, 0, 0, 0, 0, 0, 0⟩).get ⟨i, hr⟩ =
        N * ((1.229 - 8.5e-4 * ([(300 : ℝ)].get ⟨i, ht⟩ - 298.15)
              + 4.3085e-5 * [(300 : ℝ)].get ⟨i, ht⟩ * (Real.log pH2 + 0.5 * Real.log pO2))
          - ((0 : ℝ) + (0 : ℝ) * [(300 : ℝ)].get ⟨i, ht⟩
              + (0 : ℝ) * [(300 : ℝ)].get ⟨i, ht⟩ * Real.log (pO2 / (5.08e6 * Real.exp (-498 / [(300 : ℝ)].get ⟨i, ht⟩)))
              + (0 : ℝ) * [(300 : ℝ)].get ⟨i, ht⟩ * Real.log ([(1 : ℝ)].get ⟨i, hi⟩ + 1e-6))
          - (0 : ℝ) * [(1 : ℝ)].get ⟨i, hi⟩
          - (0 : ℝ) * Real.exp ((0 : ℝ) * [(1 : ℝ)].get ⟨i, hi⟩))) :=
  ⟨rfl, calcular_vsaida_spec_formula [(1 : ℝ)] [(300 : ℝ)] ⟨0, 0, 0, 0, 0, 0, 0⟩ rfl⟩

/-- C2 counterexample: the two source variants do not compute the same
function.  At `I = [1]`, `T = [300]` and the parameter vector with `x1 = 1`
and every other component `0`, `__main__.py` returns `N * (v_nernst - 1)`
while `csv.py` returns `N * (v_nernst + 1)`. -/
theorem variants_disagree :
    calcular_vsaida [(1 : ℝ)] [(300 : ℝ)] ⟨1, 0, 0, 0, 0, 0, 0⟩ ≠
      calcular_vsaida_csv [(1 : ℝ)] [(300 : ℝ)] ⟨1, 0, 0, 0, 0, 0, 0⟩ := by
  intro h
  have h1 : vsaida_elem (1 : ℝ) (300 : ℝ) ⟨1, 0, 0, 0, 0, 0, 0⟩ =
      vsaida_elem_csv (1 : ℝ) (300 : ℝ) ⟨1, 0, 0, 0, 0, 0, 0⟩ := by
    simpa [calcular_vsaida, calcular_vsaida_csv] using h
  simp only [vsaida_elem, vsaida_elem_csv] at h1
  rw [show (N : ℝ) = 60 from rfl] at h1
  ring_nf at h1
  exact absurd h1 (by norm_num)

/-- C2 amended: the two variants are related by negating the four
activation parameters: for every input, `csv.py`'s evaluator at
`(x1, x2, x3, x4, Rint, m, n)` equals `__main__.py`'s evaluator at
`(-x1, -x2, -x3, -x4, Rint, m, n)`; they agree exactly where the
activation term vanishes. -/
theorem csv_eq_main_on_negated_activation (I T : List ℝ) (p : Params) :
    calcular_vsaida_csv I T p =
      calcular_vsaida I T ⟨-p.x1, -p.x2, -p.x3, -p.x4, p.Rint, p.m, p.n⟩ := by
  have hfun : (fun i t => vsaida_elem_csv i t p) =
      (fun i t => vsaida_elem i t ⟨-p.x1, -p.x2, -p.x3, -p.x4, p.Rint, p.m, p.n⟩) := by
    funext i t
    simp only [vsaida_elem, vsaida_elem_csv]
    ring
  simp only [calcular_vsaida, calcular_vsaida_csv, hfun]

set_option maxHeartbeats 1000000 in
/-- C3: for every parameter vector, `func_objetivo` equals the sum over the
five samples of `(vref[i] - prediction[i])^2`; it is non-negative, and it is
zero exactly when the predicted voltage list equals `vref`. -/
theorem func_objetivo_sum_of_squares (p : Params) :
    func_objetivo p =
      (52.2 - vsaida_elem 11.2 306.55 p) ^ 2 + (51.1 - vsaida_elem 22.6 315.85 p) ^ 2
        + (49.2 - vsaida_elem 35.4 322.45 p) ^ 2 + (47 - vsaida_elem 49.9 326.25 p) ^ 2
        + (44.1 - vsaida_elem 68.1 330.45 p) ^ 2 ∧
    0 ≤ func_objetivo p ∧
    (func_objetivo p = 0 ↔ calcular_vsaida corrente temperatura p = vref) := by
  have hfo : func_objetivo p =
      (52.2 - vsaida_elem 11.2 306.55 p) ^ 2 + (51.1 - vsaida_elem 22.6 315.85 p) ^ 2
        + (49.2 - vsaida_elem 35.4 322.45 p) ^ 2 + (47 - vsaida_elem 49.9 326.25 p) ^ 2
        + (44.1 - vsaida_elem 68.1 330.45 p) ^ 2 := by
    simp only [func_objetivo, calcular_vsaida, corrente, temperatura, vref,
      List.zipWith_cons_cons, List.zipWith_nil_right, List.sum_cons, List.sum_nil]
    ring
  have hlist : calcular_vsaida corrente temperatura p = vref ↔
      vsaida_elem 11.2 306.55 p = 52.2 ∧ vsaida_elem 22.6 315.85 p = 51.1 ∧
      vsaida_elem 35.4 322.45 p = 49.2 ∧ vsaida_elem 49.9 326.25 p = 47 ∧
      vsaida_elem 68.1 330.45 p = 44.1 := by
    simp [calcular_vsaida, corrente, temperatura, vref]
  have s1 := sq_nonneg (52.2 - vsaida_elem 11.2 306.55 p)
  have s2 := sq_nonneg (51.1 - vsaida_elem 22.6 315.85 p)
  have s3 := sq_nonneg (49.2 - vsaida_elem 35.4 322.45 p)
  have s4 := sq_nonneg (47 - vsaida_elem 49.9 326.25 p)
  have s5 := sq_nonneg (44.1 - vsaida_elem 68.1 330.45 p)
  refine ⟨hfo, by rw [hfo]; positivity, ?_⟩
  rw [hfo, hlist]
  constructor
  · intro h
    have two_ne : (2 : ℕ) ≠ 0 := by norm_num
    have e1 : 52.2 - vsaida_elem 11.2 306.55 p = 0 :=
      (pow_eq_zero_iff two_ne).mp (by linarith)
    have e2 : 51.1 - vsaida_elem 22.6 315.85 p = 0 :=
      (pow_eq_zero_iff two_ne).mp (by linarith)
    have e3 : 49.2 - vsaida_elem 35.4 322.45 p = 0 :=
      (pow_eq_zero_iff two_ne).mp (by linarith)
    have e4 : 47 - vsaida_elem 49.9 326.25 p = 0 :=
      (pow_eq_zero_iff two_ne).mp (by linarith)
    have e5 : 44.1 - vsaida_elem 68.1 330.45 p = 0 :=
      (pow_eq_zero_iff two_ne).mp (by linarith)
    exact ⟨by linarith, by linarith, by linarith, by linarith, by linarith⟩
  · rintro ⟨h1, h2, h3, h4, h5⟩
    rw [h1, h2, h3, h4, h5]
    norm_num

/-- The arguments of the four `np.log` call sites in `calcular_vsaida`
(`__main__.py` lines 22–23), as a function of the sample current `I` and
temperature `T`: `pH2`, `pO2`, `pO2 / (5.08e6 * exp(-498/T))` and
`I + 1e-6`.  No logarithm argument depends on the parameter vector. -/
noncomputable def logArguments (I T : ℝ) : List ℝ :=
  [pH2, pO2, pO2 / (5.08e6 * Real.exp (-498 / T)), I + 1e-6]

/-- C4: for every temperature `T > 0` and current `I > -1e-6`, every
logarithm argument of the model evaluator is strictly positive, and the
program's constants `pH2`, `pO2` lie in `(0, 1]`; hence the evaluator's
value is a well-defined real number for every parameter vector. -/
theorem logArguments_pos (I T : ℝ) (hT : 0 < T) (hI : -1e-6 < I) :
    (∀ a ∈ logArguments I T, 0 < a) ∧ pH2 ≤ 1 ∧ pO2 ≤ 1 := by
  refine ⟨?_, by norm_num [pH2], by norm_num [pO2]⟩
  intro a ha
  simp only [logArguments, List.mem_cons, List.not_mem_nil, or_false] at ha
  rcases ha with h | h | h | h
  · rw [h]; norm_num [pH2]
  · rw [h]; norm_num [pO2]
  · rw [h]
    apply div_pos (by norm_num [pO2])
    positivity
  · rw [h]
    have h6 : (0 : ℝ) < 1e-6 := by norm_num
    linarith

/-- Witness for `logArguments_pos` at `I = 0`, `T = 1`. -/
theorem logArguments_pos_witness :
    ((0 : ℝ) < 1) ∧ ((-1e-6 : ℝ) < 0) ∧
    ((∀ a ∈ logArguments 0 1, 0 < a) ∧ pH2 ≤ 1 ∧ pO2 ≤ 1) :=
  ⟨by norm_num, by norm_num, logArguments_pos 0 1 (by norm_num) (by norm_num)⟩

/-- The recomputed prediction at the final parameters,
`v_saida_otimizada = calcular_vsaida(corrente, temperatura, params)`. -/
noncomputable def v_saida_otimizada (p : Params) : List ℝ :=
  calcular_vsaida corrente temperatura p

/-- The per-sample output power `potencia_saida = v_saida_otimizada * corrente`
(element-wise NumPy product). -/
noncomputable def potencia_saida (p : Params) : List ℝ :=
  List.zipWith (fun v i => v * i) (v_saida_otimizada p) corrente

/-- The per-sample percent error
`erro_perc = np.abs((vref - v_saida_otimizada) / vref) * 100`. -/
noncomputable def erro_perc (p : Params) : List ℝ :=
  List.zipWith (fun r v => |(r - v) / r| * 100) vref (v_saida_otimizada p)

/-- The mean percent error `np.mean(erro_perc)`: sum divided by length. -/
noncomputable def erro_perc_medio (p : Params) : ℝ :=
  (erro_perc p).sum / ((erro_perc p).length : ℝ)

/-- C5: the post-processing stage is a pure function of the final parameter
vector and the sample set: for every parameter vector, the per-sample
percent error equals `|ref - pred| / ref * 100`, the mean percent error is
the arithmetic mean of the five per-sample percent errors, and the
per-sample power equals `pred * current`. -/
theorem postprocessing_formulas (p : Params) :
    erro_perc p =
      [|52.2 - vsaida_elem 11.2 306.55 p| / 52.2 * 100,
       |51.1 - vsaida_elem 22.6 315.85 p| / 51.1 * 100,
       |49.2 - vsaida_elem 35.4 322.45 p| / 49.2 * 100,
       |47 - vsaida_elem 49.9 326.25 p| / 47 * 100,
       |44.1 - vsaida_elem 68.1 330.45 p| / 44.1 * 100] ∧
    erro_perc_medio p =
      (|52.2 - vsaida_elem 11.2 306.55 p| / 52.2 * 100
        + |51.1 - vsaida_elem 22.6 315.85 p| / 51.1 * 100
        + |49.2 - vsaida_elem 35.4 322.45 p| / 49.2 * 100
        + |47 - vsaida_elem 49.9 326.25 p| / 47 * 100
        + |44.1 - vsaida_elem 68.1 330.45 p| / 44.1 * 100) / 5 ∧
    potencia_saida p =
      [vsaida_elem 11.2 306.55 p * 11.2,
       vsaida_elem 22.6 315.85 p * 22.6,
       vsaida_elem 35.4 322.45 p * 35.4,
       vsaida_elem 49.9 326.25 p * 49.9,
       vsaida_elem 68.1 330.45 p * 68.1] := by
  have h1 : |(52.2 : ℝ)| = 52.2 := abs_of_pos (by norm_num)
  have h2 : |(51.1 : ℝ)| = 51.1 := abs_of_pos (by norm_num)
  have h3 : |(49.2 : ℝ)| = 49.2 := abs_of_pos (by norm_num)
  have h4 : |(47 : ℝ)| = 47 := abs_of_pos (by norm_num)
  have h5 : |(44.1 : ℝ)| = 44.1 := abs_of_pos (by norm_num)
  have hep : erro_perc p =
      [|52.2 - vsaida_elem 11.2 306.55 p| / 52.2 * 100,
       |51.1 - vsaida_elem 22.6 315.85 p| / 51.1 * 100,
       |49.2 - vsaida_elem 35.4 322.45 p| / 49.2 * 100,
       |47 - vsaida_elem 49.9 326.25 p| / 47 * 100,
       |44.1 - vsaida_elem 68.1 330.45 p| / 44.1 * 100] := by
    simp only [erro_perc, v_saida_otimizada, calcular_vsaida, corrente, temperatura, vref,
      List.zipWith_cons_cons, List.zipWith_nil_right, abs_div, h1, h2, h3, h4, h5]
  refine ⟨hep, ?_, ?_⟩
  · rw [erro_perc_medio, hep]
    simp only [List.sum_cons, List.sum_nil, List.length_cons, List.length_nil]
    norm_num
    ring
  · simp only [potencia_saida, v_saida_otimizada, calcular_vsaida, corrente, temperatura,
      List.zipWith_cons_cons, List.zipWith_nil_right]

/-- C9 counterexample: at zero current the ohmic loss `Rint * I` vanishes,
so increasing `Rint` from `0` to `1` leaves the predicted voltage unchanged
instead of strictly decreasing it: the claimed strict monotonicity fails
for the input `I = 0`, `T = 300`. -/
theorem rint_not_strict_at_zero_current :
    ¬ vsaida_elem 0 300 ⟨0, 0, 0, 0, 1, 0, 0⟩ < vsaida_elem 0 300 ⟨0, 0, 0, 0, 0, 0, 0⟩ := by
  have heq : vsaida_elem 0 300 ⟨0, 0, 0, 0, 1, 0, 0⟩ =
      vsaida_elem 0 300 ⟨0, 0, 0, 0, 0, 0, 0⟩ := by
    simp only [vsaida_elem]
    ring
  rw [heq]
  exact lt_irrefl _

/-- C9 amended: for every input with strictly positive current `I > 0`
(holding `I`, `T` and the six other parameters fixed), strictly increasing
`Rint` strictly decreases the predicted voltage. -/
theorem rint_strict_anti_of_pos_current (I T : ℝ) (p : Params) (R : ℝ)
    (hI : 0 < I) (hR : p.Rint < R) :
    vsaida_elem I T ⟨p.x1, p.x2, p.x3, p.x4, R, p.m, p.n⟩ < vsaida_elem I T p := by
  have hdiff : vsaida_elem I T p - vsaida_elem I T ⟨p.x1, p.x2, p.x3, p.x4, R, p.m, p.n⟩
      = N * ((R - p.Rint) * I) := by
    simp only [vsaida_elem]
    ring
  have hN : (0 : ℝ) < N := by norm_num [N]
  have hpos : 0 < N * ((R - p.Rint) * I) :=
    mul_pos hN (mul_pos (sub_pos.mpr hR) hI)
  linarith

/-- Witness for `rint_strict_anti_of_pos_current` at `I = 1`, `T = 300`,
the zero parameter vector, and `Rint` increased from `0` to `1`. -/
theorem rint_strict_anti_of_pos_current_witness :
    ((0 : ℝ) < 1) ∧ (Params.Rint ⟨0, 0, 0, 0, 0, 0, 0⟩ < (1 : ℝ)) ∧
    vsaida_elem 1 300 ⟨0, 0, 0, 0, 1, 0, 0⟩ < vsaida_elem 1 300 ⟨0, 0, 0, 0, 0, 0, 0⟩ :=
  ⟨by norm_num, by show (0 : ℝ) < 1; norm_num,
    rint_strict_anti_of_pos_current 1 300 ⟨0, 0, 0, 0, 0, 0, 0⟩ 1
      (by norm_num) (by show (0 : ℝ) < 1; norm_num)⟩

/-- C10: for every current (of any sign), every temperature, and every value
of the other six parameters, strictly increasing `m` strictly decreases the
predicted voltage in both source variants, because the concentration loss
`m * exp(n * I)` is subtracted with the strictly positive coefficient
`N * exp(n * I)`. -/
theorem m_strict_anti_both_variants (I T : ℝ) (p : Params) (m2 : ℝ)
    (hm : p.m < m2) :
    vsaida_elem I T ⟨p.x1, p.x2, p.x3, p.x4, p.Rint, m2, p.n⟩ < vsaida_elem I T p ∧
    vsaida_elem_csv I T ⟨p.x1, p.x2, p.x3, p.x4, p.Rint, m2, p.n⟩ < vsaida_elem_csv I T p := by
  have hexp : 0 < Real.exp (p.n * I) := Real.exp_pos _
  have hN : (0 : ℝ) < N := by norm_num [N]
  have hpos : 0 < N * ((m2 - p.m) * Real.exp (p.n * I)) :=
    mul_pos hN (mul_pos (sub_pos.mpr hm) hexp)
  constructor
  · have hdiff : vsaida_elem I T p
        - vsaida_elem I T ⟨p.x1, p.x2, p.x3, p.x4, p.Rint, m2, p.n⟩
        = N * ((m2 - p.m) * Real.exp (p.n * I)) := by
      simp only [vsaida_elem]
      ring
    linarith
  · have hdiff : vsaida_elem_csv I T p
        - vsaida_elem_csv I T ⟨p.x1, p.x2, p.x3, p.x4, p.Rint, m2, p.n⟩
        = N * ((m2 - p.m) * Real.exp (p.n * I)) := by
      simp only [vsaida_elem_csv]
      ring
    linarith

/-- Witness for `m_strict_anti_both_variants` at `I = -1` (a negative
current), `T = 300`, the zero parameter vector, and `m` increased from `0`
to `1`. -/
theorem m_strict_anti_both_variants_witness :
    (Params.m ⟨0, 0, 0, 0, 0, 0, 0⟩ < (1 : ℝ)) ∧
    (vsaida_elem (-1) 300 ⟨0, 0, 0, 0, 0, 1, 0⟩ < vsaida_elem (-1) 300 ⟨0, 0, 0, 0, 0, 0, 0⟩ ∧
     vsaida_elem_csv (-1) 300 ⟨0, 0, 0, 0, 0, 1, 0⟩ < vsaida_elem_csv (-1) 300 ⟨0, 0, 0, 0, 0, 0, 0⟩) :=
  ⟨by show (0 : ℝ) < 1; norm_num,
    m_strict_anti_both_variants (-1) 300 ⟨0, 0, 0, 0, 0, 0, 0⟩ 1
      (by show (0 : ℝ) < 1; norm_num)⟩

/-- The sample set handed to the fit engine: the three parallel sequences
`corrente`, `temperatura`, `vref`. -/
structure FitInput where
  corrente : List ℝ
  temperatura : List ℝ
  vref : List ℝ

/-- Modelled from the spec: the input validation the fit engine must perform
before any optimization starts (the optimizer stages themselves are
`scipy.optimize.differential_evolution` and `scipy.optimize.minimize`
library code, not part of this repository).  Per §3 and §7: the three sample
sequences have equal length, the sample set is non-empty, and every bound
satisfies `min ≤ max`. -/
def validInput (s : FitInput) (bounds : List (ℝ × ℝ)) : Prop :=
  s.corrente.length = s.temperatura.length ∧
  s.corrente.length = s.vref.length ∧
  s.corrente ≠ [] ∧
  ∀ b ∈ bounds, b.1 ≤ b.2

/-- Modelled from the spec: a bounded optimizer keeps every candidate inside
the bounds hyper-rectangle; a candidate is projected coordinate-wise onto
`[min_i, max_i]` before the objective is evaluated at it. -/
noncomputable def clampToBounds (bounds : List (ℝ × ℝ)) (c : List ℝ) : List ℝ :=
  List.zipWith (fun b x => max b.1 (min x b.2)) bounds c

open Classical in
/-- Modelled from the spec: the point with the best (lowest) objective value
among the evaluated candidates. -/
noncomputable def bestOf (f : List ℝ → ℝ) (cands : List (List ℝ)) : List ℝ :=
  cands.foldl (fun best c => if f c < f best then c else best) (cands.headD [])

/-- The observable trace of one fitting run: the list of parameter vectors
at which the objective was evaluated, and the final outcome. -/
structure FitTrace where
  evaluated : List (List ℝ)
  result : Except String (List ℝ)

open Classical in
/-- Modelled from the spec: the two-stage fit engine of §4.2.  It validates
its input before any optimization starts (failing fast with `InvalidInput`,
evaluating nothing); otherwise both stages — the global differential-
evolution-style search exploring candidate population `pop1` and the
L-BFGS-B-style local refinement probing points `pop2` — evaluate the
objective only at candidates clamped into the bounds hyper-rectangle, and
the best evaluated point is returned. -/
noncomputable def fit (f : List ℝ → ℝ) (s : FitInput) (bounds : List (ℝ × ℝ))
    (pop1 pop2 : List (List ℝ)) : FitTrace :=
  if validInput s bounds then
    let evals := pop1.map (clampToBounds bounds) ++ pop2.map (clampToBounds bounds)
    { evaluated := evals, result := Except.ok (bestOf f evals) }
  else
    { evaluated := [], result := Except.error "InvalidInput" }

/-- C7: if any bounds entry has `min > max` — or the sample sequences have
mismatched lengths, or the sample set is empty — the fit fails with
`InvalidInput` before any optimizer iteration runs: the result is the
`InvalidInput` error and the objective is never evaluated (the evaluation
trace is empty). -/
theorem invalid_input_fails_before_optimization (f : List ℝ → ℝ) (s : FitInput)
    (bounds : List (ℝ × ℝ)) (pop1 pop2 : List (List ℝ))
    (hbad : (∃ b ∈ bounds, b.2 < b.1) ∨ s.corrente.length ≠ s.temperatura.length ∨
      s.corrente.length ≠ s.vref.length ∨ s.corrente = []) :
    (fit f s bounds pop1 pop2).result = Except.error "InvalidInput" ∧
    (fit f s bounds pop1 pop2).evaluated = [] := by
  have hnv : ¬ validInput s bounds := by
    rintro ⟨hlen1, hlen2, hne, hb⟩
    rcases hbad with ⟨b, hbmem, hlt⟩ | h | h | h
    · exact absurd (hb b hbmem) (not_le.mpr hlt)
    · exact h hlen1
    · exact h hlen2
    · exact hne h
  rw [fit, if_neg hnv]
  exact ⟨rfl, rfl⟩

/-- Witness for `invalid_input_fails_before_optimization` with the single
degenerate bound `(1, 0)`. -/
theorem invalid_input_fails_before_optimization_witness :
    ((∃ b ∈ [((1 : ℝ), (0 : ℝ))], b.2 < b.1) ∨
      ([(1 : ℝ)] : List ℝ).length ≠ ([(1 : ℝ)] : List ℝ).length ∨
      ([(1 : ℝ)] : List ℝ).length ≠ ([(1 : ℝ)] : List ℝ).length ∨
      ([(1 : ℝ)] : List ℝ) = []) ∧
    ((fit (fun _ => 0) ⟨[(1 : ℝ)], [(1 : ℝ)], [(1 : ℝ)]⟩ [((1 : ℝ), (0 : ℝ))] [] []).result =
        Except.error "InvalidInput" ∧
     (fit (fun _ => 0) ⟨[(1 : ℝ)], [(1 : ℝ)], [(1 : ℝ)]⟩ [((1 : ℝ), (0 : ℝ))] [] []).evaluated = []) :=
  ⟨Or.inl ⟨(1, 0), by simp, by norm_num⟩,
    invalid_input_fails_before_optimization _ _ _ _ _
      (Or.inl ⟨(1, 0), by simp, by norm_num⟩)⟩

/-- Every coordinate of a clamped candidate lies inside its bound interval,
provided that interval is non-degenerate. -/
theorem clampToBounds_get_mem (bounds : List (ℝ × ℝ)) (c : List ℝ) (i : ℕ)
    (hi : i < (clampToBounds bounds c).length) (hib : i < bounds.length)
    (hb : (bounds.get ⟨i, hib⟩).1 ≤ (bounds.get ⟨i, hib⟩).2) :
    (bounds.get ⟨i, hib⟩).1 ≤ (clampToBounds bounds c).get ⟨i, hi⟩ ∧
    (clampToBounds bounds c).get ⟨i, hi⟩ ≤ (bounds.get ⟨i, hib⟩).2 := by
  have hc : i < c.length := by
    have := hi
    simp only [clampToBounds, List.length_zipWith, lt_min_iff] at this
    exact this.2
  have hget : (clampToBounds bounds c).get ⟨i, hi⟩ =
      max (bounds.get ⟨i, hib⟩).1 (min (c.get ⟨i, hc⟩) (bounds.get ⟨i, hib⟩).2) := by
    simp [clampToBounds, List.get_eq_getElem, List.getElem_zipWith]
  rw [hget]
  exact ⟨le_max_left _ _, max_le hb (min_le_right _ _)⟩

/-- C8: throughout both optimization stages, every parameter vector at which
the objective is evaluated satisfies `min_i ≤ p_i ≤ max_i` in every
coordinate of the declared bounds: no candidate outside the bounds
hyper-rectangle is ever evaluated. -/
theorem evaluated_candidates_within_bounds (f : List ℝ → ℝ) (s : FitInput)
    (bounds : List (ℝ × ℝ)) (pop1 pop2 : List (List ℝ)) (p : List ℝ)
    (hp : p ∈ (fit f s bounds pop1 pop2).evaluated)
    (i : ℕ) (hi : i < p.length) (hib : i < bounds.length) :
    (bounds.get ⟨i, hib⟩).1 ≤ p.get ⟨i, hi⟩ ∧
    p.get ⟨i, hi⟩ ≤ (bounds.get ⟨i, hib⟩).2 := by
  by_cases hv : validInput s bounds
  · have hev : (fit f s bounds pop1 pop2).evaluated =
        pop1.map (clampToBounds bounds) ++ pop2.map (clampToBounds bounds) := by
      rw [fit, if_pos hv]
    rw [hev] at hp
    have hb : (bounds.get ⟨i, hib⟩).1 ≤ (bounds.get ⟨i, hib⟩).2 :=
      hv.2.2.2 _ (List.get_mem bounds i hib)
    rcases List.mem_append.mp hp with h | h <;>
      obtain ⟨c, -, rfl⟩ := List.mem_map.mp h <;>
      exact clampToBounds_get_mem bounds c i hi hib hb
  · have hev : (fit f s bounds pop1 pop2).evaluated = [] := by
      rw [fit, if_neg hv]
    rw [hev] at hp
    exact absurd hp (List.not_mem_nil p)

/-- Witness for `evaluated_candidates_within_bounds`: with the single bound
`(0, 1)` and the out-of-range stage-1 candidate `[5]`, the evaluated point is
the clamped `[1]`, which lies inside the bound. -/
theorem evaluated_candidates_within_bounds_witness :
    ([(1 : ℝ)] ∈ (fit (fun _ => (0 : ℝ)) ⟨[(1 : ℝ)], [(1 : ℝ)], [(1 : ℝ)]⟩
        [((0 : ℝ), (1 : ℝ))] [[(5 : ℝ)]] []).evaluated) ∧
    (([((0 : ℝ), (1 : ℝ))].get ⟨0, by norm_num⟩).1 ≤ [(1 : ℝ)].get ⟨0, by norm_num⟩ ∧
      [(1 : ℝ)].get ⟨0, by norm_num⟩ ≤ ([((0 : ℝ), (1 : ℝ))].get ⟨0, by norm_num⟩).2) := by
  have hv : validInput ⟨[(1 : ℝ)], [(1 : ℝ)], [(1 : ℝ)]⟩ [((0 : ℝ), (1 : ℝ))] :=
    ⟨rfl, rfl, by simp, by intro b hb; simp at hb; rw [hb]; norm_num⟩
  have hclamp : clampToBounds [((0 : ℝ), (1 : ℝ))] [(5 : ℝ)] = [(1 : ℝ)] := by
    simp only [clampToBounds, List.zipWith_cons_cons, List.zipWith_nil_right]
    rw [min_eq_right (by norm_num : (1 : ℝ) ≤ 5), max_eq_right (by norm_num : (0 : ℝ) ≤ 1)]
  have hmem : [(1 : ℝ)] ∈ (fit (fun _ => (0 : ℝ)) ⟨[(1 : ℝ)], [(1 : ℝ)], [(1 : ℝ)]⟩
      [((0 : ℝ), (1 : ℝ))] [[(5 : ℝ)]] []).evaluated := by
    rw [fit, if_pos hv]
    simp [hclamp]
  exact ⟨hmem, evaluated_candidates_within_bounds _ _ _ _ _ _ hmem 0 (by norm_num) (by norm_num)⟩

end H2fit
